import Mathlib

/-!
Verification of the mesh health-monitoring subsystem of the heartbeat
repository (`src/src/lib/meshNetwork.ts`), as a shallow embedding.

The `MeshNetworkService` class keeps a `Map<string, MeshNode>` of peers, a
current `systemStatus` posture, and two sets of listener callbacks.  Ticks
probe every node, then `updateSystemStatus` recounts the online nodes, maps
the count to a posture, and dispatches listeners on posture edges.

Modelling conventions:
- the JS `Map` is an association list with unique keys, with `set` replacing
  in place and `delete` removing the entry;
- callbacks are identified by natural numbers; a `Set` of callbacks is a
  duplicate-free list, and invoking them yields the list of ids invoked, in
  iteration order;
- network I/O (`fetch`) is external: a probe's outcome is passed in as a
  `ProbeResult`, and the three emergency-alert channel fetches are passed in
  as per-channel success booleans;
- wall-clock times are naturals (ms).
-/

namespace Heartbeat

/-- Node status values of `MeshNode.status` (meshNetwork.ts line 6). -/
inductive NodeStatus
  | online
  | offline
  | unreachable
  deriving DecidableEq, Repr

/-- Posture values of `MeshStatus.systemStatus` (meshNetwork.ts line 15). -/
inductive SystemStatus
  | armed
  | disarmed
  | critical
  deriving DecidableEq, Repr

/-- Structure `MeshNode` (meshNetwork.ts lines 3-10). -/
structure MeshNode where
  id : String
  url : String
  status : NodeStatus
  lastHeartbeat : Nat
  latency : Nat
  apiToken : String
  deriving DecidableEq, Repr

/-- Structure `MeshStatus` (meshNetwork.ts lines 12-18). -/
structure MeshStatus where
  totalNodes : Nat
  onlineNodes : Nat
  systemStatus : SystemStatus
  requiresUserAuthentication : Bool
  emergencyTriggered : Bool
  deriving DecidableEq, Repr

/-- Source constant `HEARTBEAT_INTERVAL = 1000` ms (meshNetwork.ts line 27). -/
def HEARTBEAT_INTERVAL : Nat := 1000

/-- Source constant `HEARTBEAT_TIMEOUT = 3000` ms (meshNetwork.ts line 28). -/
def HEARTBEAT_TIMEOUT : Nat := 3000

/-- Source constant `MIN_NODES_ARMED = 3` (meshNetwork.ts line 29). -/
def MIN_NODES_ARMED : Nat := 3

/-- The mutable fields of the `MeshNetworkService` class
(meshNetwork.ts lines 21-25): the node map, whether the heartbeat interval
timer is installed, the current posture, and the two callback registries. -/
structure ServiceState where
  nodes : List (String × MeshNode)
  heartbeatActive : Bool
  systemStatus : SystemStatus
  emergencyCallbacks : List Nat
  authenticationCallbacks : List Nat
  deriving DecidableEq, Repr

/-- The initial field values of a freshly constructed `MeshNetworkService`
(meshNetwork.ts lines 21-25): empty node map, no timer, posture `disarmed`,
no listeners. -/
def initialState : ServiceState :=
  { nodes := []
    heartbeatActive := false
    systemStatus := SystemStatus.disarmed
    emergencyCallbacks := []
    authenticationCallbacks := [] }

/-- JS `Map.get`: the value at the (unique) matching key, if present. -/
def mapGet (m : List (String × MeshNode)) (k : String) : Option MeshNode :=
  match m with
  | [] => none
  | p :: rest => if p.1 = k then some p.2 else mapGet rest k

/-- JS `Map.has`. -/
def containsKey (m : List (String × MeshNode)) (k : String) : Bool :=
  (mapGet m k).isSome

/-- JS `Map.set`: replace in place when the key is present (insertion order
kept), append otherwise. -/
def mapSet (m : List (String × MeshNode)) (k : String) (v : MeshNode) :
    List (String × MeshNode) :=
  match m with
  | [] => [(k, v)]
  | p :: rest => if p.1 = k then (k, v) :: rest else p :: mapSet rest k v

/-- JS `Map.delete`: drop the (unique) entry with the key. -/
def mapDelete (m : List (String × MeshNode)) (k : String) :
    List (String × MeshNode) :=
  match m with
  | [] => []
  | p :: rest => if p.1 = k then rest else p :: mapDelete rest k

/-- JS `Array.from(map.values())`. -/
def mapValues (m : List (String × MeshNode)) : List MeshNode :=
  m.map Prod.snd

/-- The online-node count
`Array.from(this.nodes.values()).filter(n => n.status === 'online').length`
(meshNetwork.ts line 133). -/
def onlineCount (nodes : List MeshNode) : Nat :=
  (nodes.filter (fun n => decide (n.status = NodeStatus.online))).length

/-- What one call of `updateSystemStatus` does, beyond mutating
`this.systemStatus`: which authentication callbacks were invoked (in order),
which emergency callbacks were invoked, and whether the external alerting
fan-out (`sendEmergencyAlerts`) was started. -/
structure StatusUpdateResult where
  newStatus : SystemStatus
  authInvoked : List Nat
  emergInvoked : List Nat
  alertingInvoked : Bool
  deriving DecidableEq, Repr

/-- Function `updateSystemStatus` (meshNetwork.ts lines 131-169).  Counts the
online nodes and branches: `>= MIN_NODES_ARMED` sets `armed`; `=== 2` sets
`disarmed` and, when the previous posture was `armed`, runs
`triggerUserAuthentication` (lines 187-196), which invokes every registered
authentication callback; `=== 1` and the final `else` both set `critical`
and, when the previous posture was not `critical`, run `triggerEmergency`
(lines 198-207), which starts `sendEmergencyAlerts` and invokes every
registered emergency callback via `notifyEmergencyCallbacks` (lines 281-289).
Callback registries are JS `Set`s, so the invocation lists are exactly the
registered ids. -/
def updateSystemStatus (nodes : List MeshNode) (previousStatus : SystemStatus)
    (authCbs emergCbs : List Nat) : StatusUpdateResult :=
  if MIN_NODES_ARMED ≤ onlineCount nodes then
    { newStatus := SystemStatus.armed
      authInvoked := [], emergInvoked := [], alertingInvoked := false }
  else if onlineCount nodes = 2 then
    if previousStatus = SystemStatus.armed then
      { newStatus := SystemStatus.disarmed
        authInvoked := authCbs, emergInvoked := [], alertingInvoked := false }
    else
      { newStatus := SystemStatus.disarmed
        authInvoked := [], emergInvoked := [], alertingInvoked := false }
  else if onlineCount nodes = 1 then
    if previousStatus ≠ SystemStatus.critical then
      { newStatus := SystemStatus.critical
        authInvoked := [], emergInvoked := emergCbs, alertingInvoked := true }
    else
      { newStatus := SystemStatus.critical
        authInvoked := [], emergInvoked := [], alertingInvoked := false }
  else
    if previousStatus ≠ SystemStatus.critical then
      { newStatus := SystemStatus.critical
        authInvoked := [], emergInvoked := emergCbs, alertingInvoked := true }
    else
      { newStatus := SystemStatus.critical
        authInvoked := [], emergInvoked := [], alertingInvoked := false }

/-- Hex digit characters for rendering a digest. -/
def hexDigitChar (n : Nat) : Char :=
  match n with
  | 0 => '0' | 1 => '1' | 2 => '2' | 3 => '3' | 4 => '4'
  | 5 => '5' | 6 => '6' | 7 => '7' | 8 => '8' | 9 => '9'
  | 10 => 'a' | 11 => 'b' | 12 => 'c' | 13 => 'd' | 14 => 'e'
  | _ => 'f'

/-- Render a natural number as at most `fuel` hex digits, most significant
first. -/
def hexChars (fuel n : Nat) : List Char :=
  match fuel with
  | 0 => []
  | f + 1 => if n = 0 then [] else hexChars f (n / 16) ++ [hexDigitChar (n % 16)]

/-- Function `generateNodeId` (meshNetwork.ts lines 58-60) is
`crypto.createHash('sha256').update(url).digest('hex').substring(0, 8)`.
Modelled from the spec: the `crypto` module is a Node.js builtin, external to
the repository, and the spec consumes it only as a deterministic,
collision-resistant digest of the address; it is modelled here as a concrete
deterministic digest of the url string — a polynomial rolling hash over the
characters, rendered as at most eight hex digits.  Every property proved
below uses only that the digest is a pure function of the url. -/
def generateNodeId (url : String) : String :=
  String.mk (hexChars 8
    (url.data.foldl (fun h c => (h * 31 + c.toNat) % 4294967296) 7))

/-- The outcome of the external `fetch` of one heartbeat probe: either the
response was ok (carrying the measured round-trip latency in ms), or the
fetch threw / timed out / returned a non-ok status (carrying the elapsed ms
until the failure). -/
inductive ProbeResult
  | ok (latencyMs : Nat)
  | fail (elapsedMs : Nat)
  deriving DecidableEq, Repr

/-- Function `checkNodeHealth` (meshNetwork.ts lines 81-129), as its effect
on the probed node's record.  `now` is the wall-clock time at which the probe
settled.  On a successful response the node becomes `online` with
`lastHeartbeat = now` and the measured latency; on any failure it becomes
`unreachable` with the elapsed latency, and is downgraded to `offline` when
`now - lastHeartbeat > HEARTBEAT_TIMEOUT * 2`. -/
def checkNodeHealth (node : MeshNode) (now : Nat) (r : ProbeResult) : MeshNode :=
  match r with
  | ProbeResult.ok lat =>
      { node with status := NodeStatus.online, lastHeartbeat := now, latency := lat }
  | ProbeResult.fail elapsed =>
      let n := { node with status := NodeStatus.unreachable, latency := elapsed }
      if HEARTBEAT_TIMEOUT * 2 < now - n.lastHeartbeat then
        { n with status := NodeStatus.offline }
      else n

/-- Function `getMeshStatus` (meshNetwork.ts lines 293-304). -/
def getMeshStatus (st : ServiceState) : MeshStatus :=
  { totalNodes := st.nodes.length
    onlineNodes := onlineCount (mapValues st.nodes)
    systemStatus := st.systemStatus
    requiresUserAuthentication :=
      decide (st.systemStatus = SystemStatus.disarmed) &&
        decide (onlineCount (mapValues st.nodes) = 2)
    emergencyTriggered := decide (st.systemStatus = SystemStatus.critical) }

/-- Function `addNode` (meshNetwork.ts lines 326-346).  Computes the
deterministic id, unconditionally `set`s a fresh record (`status=offline`,
`lastHeartbeat=0`, `latency=0`) under that id — overwriting any existing
entry for the same url — then runs an immediate `checkNodeHealth` on that
record (the JS code mutates the very object stored in the map) and
`updateSystemStatus`.  `now`/`r` stand for the external probe's settle time
and outcome.  Returns the new state, the returned node id, and the dispatch
outcome of the status update. -/
def addNode (st : ServiceState) (url apiToken : String) (now : Nat)
    (r : ProbeResult) : ServiceState × String × StatusUpdateResult :=
  let nodeId := generateNodeId url
  let node : MeshNode :=
    { id := nodeId, url := url, status := NodeStatus.offline
      lastHeartbeat := 0, latency := 0, apiToken := apiToken }
  let nodes1 := mapSet st.nodes nodeId node
  let node2 := checkNodeHealth node now r
  let nodes2 := mapSet nodes1 nodeId node2
  let upd := updateSystemStatus (mapValues nodes2) st.systemStatus
    st.authenticationCallbacks st.emergencyCallbacks
  ({ st with nodes := nodes2, systemStatus := upd.newStatus }, nodeId, upd)

/-- Function `removeNode` (meshNetwork.ts lines 348-357).  `Map.delete`
returns whether the key was present; only when it was does the code re-run
`updateSystemStatus`. -/
def removeNode (st : ServiceState) (nodeId : String) : ServiceState × Bool :=
  if containsKey st.nodes nodeId then
    let nodes2 := mapDelete st.nodes nodeId
    let upd := updateSystemStatus (mapValues nodes2) st.systemStatus
      st.authenticationCallbacks st.emergencyCallbacks
    ({ st with nodes := nodes2, systemStatus := upd.newStatus }, true)
  else (st, false)

/-- Function `shutdown` (meshNetwork.ts lines 359-369): clears the interval
timer and clears both callback `Set`s.  The JS dispatch sites (`forEach` in
lines 189 and 282) iterate the live sets at dispatch time, so any tick that
settles after `shutdown` dispatches against these cleared registries. -/
def shutdown (st : ServiceState) : ServiceState :=
  { st with heartbeatActive := false
            emergencyCallbacks := []
            authenticationCallbacks := [] }

/-- The three external alert channels contacted by `sendEmergencyAlerts`. -/
inductive Channel
  | email
  | sms
  | voice
  deriving DecidableEq, Repr

/-- Function `sendEmergencyAlerts` (meshNetwork.ts lines 209-258): one `try`
block holding three sequential `await fetch` calls — email
(`/api/send-alert`), then SMS (`/api/emergency-sms`), then voice
(`/api/emergency-call`) — with a single `catch` that only logs.  Given each
channel's external outcome (`true` = its fetch resolves ok), this returns
the list of channels whose fetch is actually attempted: a rejection jumps to
the `catch`, skipping every later channel; the catch means no error escapes
the function. -/
def sendEmergencyAlerts (emailOk smsOk voiceOk : Bool) : List Channel :=
  if emailOk = false then [Channel.email]
  else if smsOk = false then [Channel.email, Channel.sms]
  else [Channel.email, Channel.sms, Channel.voice]

/-- Function `startHeartbeatMonitoring` (meshNetwork.ts lines 62-70) installs
`setInterval(async () => { await this.performHealthCheck(); },
HEARTBEAT_INTERVAL)` with no in-flight guard: the n-th firing, at time
`(n+1) * HEARTBEAT_INTERVAL`, unconditionally starts a health check. -/
def tickFireTime (n : Nat) : Nat :=
  (n + 1) * HEARTBEAT_INTERVAL

/-- The health check started by the n-th interval firing is still settling at
time `t` when `t` lies in `[tickFireTime n, tickFireTime n + d)`, where `d`
is the time its slowest probe takes to settle (each probe is aborted after
`HEARTBEAT_TIMEOUT` ms, so `d` ranges up to that bound). -/
def tickBusy (n d t : Nat) : Bool :=
  decide (tickFireTime n ≤ t) && decide (t < tickFireTime n + d)

/-- Spec-side posture table, written from the spec's words for the refinement
in claim C1: `onlineNodes >= 3` is `armed`, `== 2` is `disarmed`, `<= 1`
(including zero) is `critical`. -/
def postureOfCount (k : Nat) : SystemStatus :=
  if 3 ≤ k then SystemStatus.armed
  else if k = 2 then SystemStatus.disarmed
  else SystemStatus.critical

/-- A concrete online node used in counterexample states. -/
def onlineNode : MeshNode :=
  { id := "n1", url := "u1", status := NodeStatus.online
    lastHeartbeat := 0, latency := 0, apiToken := "t" }

/-- A pre-registered node whose record carries live health data, for the C7
counterexample. -/
def preRegistered : MeshNode :=
  { id := generateNodeId ("u1"), url := "u1", status := NodeStatus.online
    lastHeartbeat := 9000, latency := 50, apiToken := "t" }

/-- A service state already holding `preRegistered` under its id. -/
def stWithPreRegistered : ServiceState :=
  { nodes := [(generateNodeId ("u1"), preRegistered)]
    heartbeatActive := true
    systemStatus := SystemStatus.armed
    emergencyCallbacks := []
    authenticationCallbacks := [] }

/-- Setting then getting the same key: `Map.set` followed by `Map.get` yields
the stored value. -/
theorem mapGet_mapSet_self (m : List (String × MeshNode)) (k : String)
    (v : MeshNode) : mapGet (mapSet m k v) k = some v := by
  induction m with
  | nil => simp [mapSet, mapGet]
  | cons p rest ih =>
    by_cases h : p.1 = k
    · simp [mapSet, h, mapGet]
    · simp [mapSet, h, mapGet, ih]

/-- A key absent from the key column is not found by `mapGet`. -/
theorem mapGet_eq_none_of_not_mem (m : List (String × MeshNode)) (k : String)
    (h : k ∉ m.map Prod.fst) : mapGet m k = none := by
  induction m with
  | nil => rfl
  | cons p rest ih =>
    simp only [List.map_cons, List.mem_cons] at h
    push_neg at h
    have hpk : ¬p.1 = k := fun hh => h.1 hh.symm
    simp [mapGet, hpk, ih h.2]

/-- With unique keys (the JS `Map` invariant), deleting a key removes it. -/
theorem mapGet_mapDelete_self (m : List (String × MeshNode)) (k : String)
    (h : (m.map Prod.fst).Nodup) : mapGet (mapDelete m k) k = none := by
  induction m with
  | nil => rfl
  | cons p rest ih =>
    simp only [List.map_cons, List.nodup_cons] at h
    by_cases hk : p.1 = k
    · simp only [mapDelete, if_pos hk]
      exact mapGet_eq_none_of_not_mem rest k (hk ▸ h.1)
    · simp only [mapDelete, if_neg hk, mapGet, if_neg hk]
      exact ih h.2

/-- Variant of `mapGet_mapDelete_self` phrased with `containsKey`. -/
theorem containsKey_mapDelete_self (m : List (String × MeshNode)) (k : String)
    (h : (m.map Prod.fst).Nodup) : containsKey (mapDelete m k) k = false := by
  simp [containsKey, mapGet_mapDelete_self m k h]

/-- Claim C1: the posture computed by `updateSystemStatus` is a total,
deterministic function of the online-node count alone, agreeing with the
quorum table (`>= 3` armed, `== 2` disarmed, `<= 1` critical); the total node
count and the previous posture do not affect the resulting posture. -/
theorem posture_is_function_of_online_count (nodes : List MeshNode)
    (prev : SystemStatus) (a e : List Nat) :
    (updateSystemStatus nodes prev a e).newStatus =
      postureOfCount (onlineCount nodes) := by
  unfold updateSystemStatus postureOfCount MIN_NODES_ARMED
  split_ifs <;> simp_all

/-- Claim C2, evaluated at the failing input: when the email channel's fetch
rejects, `sendEmergencyAlerts` jumps to its single `catch` and the SMS and
voice channels are never attempted — the channels are not attempted
independently, contradicting the claimed best-effort fan-out. -/
theorem email_failure_skips_remaining_channels :
    sendEmergencyAlerts false true true = [Channel.email]
      ∧ Channel.sms ∉ sendEmergencyAlerts false true true
      ∧ Channel.voice ∉ sendEmergencyAlerts false true true := by
  decide

/-- Claim C3, evaluated at the failing input: with probes running to the
3000 ms abort timeout and the 1000 ms interval, the health checks started by
the first two interval firings (at 1000 ms and 2000 ms) are both still
settling at 2500 ms — the unguarded `setInterval` lets two evaluations of
the same node set overlap. -/
theorem interval_firings_overlap_without_guard :
    tickBusy 0 HEARTBEAT_TIMEOUT 2500 = true
      ∧ tickBusy 1 HEARTBEAT_TIMEOUT 2500 = true
      ∧ tickFireTime 0 ≠ tickFireTime 1
      ∧ HEARTBEAT_INTERVAL < HEARTBEAT_TIMEOUT := by
  decide

/-- Claim C4: on every step whose previous posture is not `critical` and
whose new posture is `critical`, every registered emergency listener is
invoked exactly once and the external alerting collaborator is invoked; on a
step whose previous posture is already `critical`, no emergency listener
fires. -/
theorem critical_entry_fires_each_emergency_listener_once
    (nodes : List MeshNode) (prev : SystemStatus) (a e : List Nat)
    (he : e.Nodup) :
    (prev ≠ SystemStatus.critical →
      (updateSystemStatus nodes prev a e).newStatus = SystemStatus.critical →
        (∀ c ∈ e, (updateSystemStatus nodes prev a e).emergInvoked.count c = 1)
          ∧ (updateSystemStatus nodes prev a e).alertingInvoked = true)
    ∧ (prev = SystemStatus.critical →
        (updateSystemStatus nodes prev a e).emergInvoked = []) := by
  unfold updateSystemStatus
  split_ifs <;> simp_all [List.count_eq_one_of_mem he]

/-- Witness for C4 at a concrete input: an empty node set (zero online) seen
from previous posture `disarmed`, with emergency listeners 5 and 9. -/
theorem critical_entry_fires_each_emergency_listener_once_witness :
    ((updateSystemStatus [] SystemStatus.disarmed [] [5, 9]).emergInvoked.count 9 = 1)
      ∧ (updateSystemStatus [] SystemStatus.disarmed [] [5, 9]).alertingInvoked = true := by
  have h := critical_entry_fires_each_emergency_listener_once []
    SystemStatus.disarmed [] [5, 9] (by decide)
  have h2 := h.1 (by decide) (by decide)
  exact ⟨h2.1 9 (by decide), h2.2⟩

/-- Counterexample to claim C5 as stated: it says a direct `armed` to
`critical` transition fires no listener, but on a step from `armed` with one
online node the code enters `critical` and invokes the registered emergency
listener (listener 0 here). -/
theorem armed_to_critical_fires_emergency_listener :
    (updateSystemStatus [onlineNode] SystemStatus.armed [] [0]).newStatus =
        SystemStatus.critical
      ∧ (updateSystemStatus [onlineNode] SystemStatus.armed [] [0]).emergInvoked =
        [0] := by
  decide

/-- Claim C5 amended: any posture transition other than `armed` to `disarmed`
and other than the (previous not `critical`, new `critical`) case fires no
listener — in particular staying in the same posture fires none — but a
direct `armed` to `critical` transition is an instance of the critical-entry
case and fires the emergency listeners. -/
theorem non_edge_steps_fire_no_listener (nodes : List MeshNode)
    (prev : SystemStatus) (a e : List Nat) :
    (¬(prev = SystemStatus.armed ∧
        (updateSystemStatus nodes prev a e).newStatus = SystemStatus.disarmed) →
      (updateSystemStatus nodes prev a e).authInvoked = [])
    ∧ (¬(prev ≠ SystemStatus.critical ∧
        (updateSystemStatus nodes prev a e).newStatus = SystemStatus.critical) →
      (updateSystemStatus nodes prev a e).emergInvoked = []
        ∧ (updateSystemStatus nodes prev a e).alertingInvoked = false)
    ∧ (prev = SystemStatus.armed →
        (updateSystemStatus nodes prev a e).newStatus = SystemStatus.critical →
      (updateSystemStatus nodes prev a e).emergInvoked = e) := by
  unfold updateSystemStatus
  split_ifs <;> simp_all

/-- Witness for C5 amended at a concrete input: a step from `disarmed` that
stays `disarmed` (two online nodes) invokes no listener, and a step from
`armed` to `critical` invokes the emergency listeners. -/
theorem non_edge_steps_fire_no_listener_witness :
    (updateSystemStatus [onlineNode, onlineNode] SystemStatus.disarmed [1] [2]).authInvoked = []
      ∧ (updateSystemStatus [onlineNode, onlineNode] SystemStatus.disarmed [1] [2]).emergInvoked = []
      ∧ (updateSystemStatus [onlineNode] SystemStatus.armed [1] [2]).emergInvoked = [2] := by
  have h1 := non_edge_steps_fire_no_listener [onlineNode, onlineNode]
    SystemStatus.disarmed [1] [2]
  have h2 := non_edge_steps_fire_no_listener [onlineNode]
    SystemStatus.armed [1] [2]
  exact ⟨h1.1 (by decide), (h1.2.1 (by decide)).1, h2.2.2 (by decide) (by decide)⟩

/-- Claim C6: every registered authentication listener is invoked exactly
once on a step from `armed` to `disarmed`, and zero times on a step that
stays `disarmed` or re-enters `disarmed` from `critical`. -/
theorem armed_to_disarmed_fires_each_auth_listener_once
    (nodes : List MeshNode) (prev : SystemStatus) (a e : List Nat)
    (ha : a.Nodup) :
    (prev = SystemStatus.armed →
      (updateSystemStatus nodes prev a e).newStatus = SystemStatus.disarmed →
        ∀ c ∈ a, (updateSystemStatus nodes prev a e).authInvoked.count c = 1)
    ∧ (prev = SystemStatus.disarmed →
        (updateSystemStatus nodes prev a e).authInvoked = [])
    ∧ (prev = SystemStatus.critical →
        (updateSystemStatus nodes prev a e).authInvoked = []) := by
  unfold updateSystemStatus
  split_ifs <;> simp_all [List.count_eq_one_of_mem ha]

/-- Witness for C6 at a concrete input: two online nodes seen from `armed`
invoke authentication listeners 4 and 7 once each; the same node set seen
from `critical` invokes none. -/
theorem armed_to_disarmed_fires_each_auth_listener_once_witness :
    ((updateSystemStatus [onlineNode, onlineNode] SystemStatus.armed [4, 7] []).authInvoked.count 7 = 1)
      ∧ (updateSystemStatus [onlineNode, onlineNode] SystemStatus.critical [4, 7] []).authInvoked = [] := by
  have h1 := armed_to_disarmed_fires_each_auth_listener_once
    [onlineNode, onlineNode] SystemStatus.armed [4, 7] [] (by decide)
  have h2 := armed_to_disarmed_fires_each_auth_listener_once
    [onlineNode, onlineNode] SystemStatus.critical [4, 7] [] (by decide)
  exact ⟨h1.1 rfl (by decide) 7 (by decide), h2.2.2 rfl⟩

/-- Counterexample to claim C7 as stated: re-registering the address "u1",
whose node is currently `online` with `lastHeartbeat = 9000` and
`latency = 50`, does return the same id, but it is not a no-op — the stored
record afterwards differs from the pre-registered one (the code overwrites
it with a fresh `offline`/0/0 record and immediately probes it; here the
probe fails, leaving `lastHeartbeat = 0`). -/
theorem repeated_registration_mutates_existing_node :
    (addNode stWithPreRegistered ("u1") ("t") 10000 (ProbeResult.fail 3000)).2.1 =
        generateNodeId ("u1")
      ∧ mapGet (addNode stWithPreRegistered ("u1") ("t") 10000
          (ProbeResult.fail 3000)).1.nodes (generateNodeId ("u1")) ≠
        some preRegistered := by
  decide

/-- Claim C7 amended: registering an address always returns the same
deterministic id (a function of the address alone), but re-registration is
not a no-op: whatever was stored before, the entry afterwards is the fresh
record (`status=offline`, `lastHeartbeat=0`, `latency=0`) as updated by the
immediate out-of-band probe. -/
theorem addNode_same_id_and_fresh_record (st : ServiceState)
    (url tok : String) (now : Nat) (r : ProbeResult) :
    (addNode st url tok now r).2.1 = generateNodeId url
      ∧ mapGet (addNode st url tok now r).1.nodes (generateNodeId url) =
        some (checkNodeHealth
          { id := generateNodeId url, url := url, status := NodeStatus.offline
            lastHeartbeat := 0, latency := 0, apiToken := tok } now r) := by
  refine ⟨rfl, ?_⟩
  unfold addNode
  simp [mapGet_mapSet_self]

/-- Claim C8: after `shutdown` the interval timer is cancelled and both
listener registries are cleared, and a status update that settles afterwards
(a tick that was mid-flight at shutdown) dispatches against the cleared
registries, so it invokes no authentication and no emergency listener,
whatever the node set and previous posture. -/
theorem shutdown_prevents_listener_dispatch (st : ServiceState)
    (nodes : List MeshNode) (prev : SystemStatus) :
    (shutdown st).heartbeatActive = false
      ∧ (shutdown st).authenticationCallbacks = []
      ∧ (shutdown st).emergencyCallbacks = []
      ∧ (updateSystemStatus nodes prev (shutdown st).authenticationCallbacks
          (shutdown st).emergencyCallbacks).authInvoked = []
      ∧ (updateSystemStatus nodes prev (shutdown st).authenticationCallbacks
          (shutdown st).emergencyCallbacks).emergInvoked = [] := by
  refine ⟨rfl, rfl, rfl, ?_, ?_⟩ <;>
    · unfold updateSystemStatus
      split_ifs <;> rfl

/-- Claim C9: `removeNode` returns whether the id was present; on an absent
id it returns `false` and leaves the whole state — hence also the snapshot —
unchanged, without failing; on a present id it returns `true` and the id is
gone afterwards (keys are unique, the JS `Map` invariant). -/
theorem removeNode_spec (st : ServiceState) (i : String)
    (h : (st.nodes.map Prod.fst).Nodup) :
    (removeNode st i).2 = containsKey st.nodes i
      ∧ (containsKey st.nodes i = false → removeNode st i = (st, false))
      ∧ (containsKey st.nodes i = false →
          getMeshStatus (removeNode st i).1 = getMeshStatus st)
      ∧ (containsKey st.nodes i = true →
          containsKey (removeNode st i).1.nodes i = false) := by
  by_cases hc : containsKey st.nodes i = true
  · refine ⟨?_, ?_, ?_, ?_⟩
    · simp [removeNode, hc]
    · intro hfalse; rw [hfalse] at hc; exact absurd hc (by decide)
    · intro hfalse; rw [hfalse] at hc; exact absurd hc (by decide)
    · intro _
      simp [removeNode, hc, containsKey_mapDelete_self st.nodes i h]
  · have hc2 : containsKey st.nodes i = false := by
      revert hc; cases containsKey st.nodes i <;> simp
    refine ⟨?_, ?_, ?_, ?_⟩
    · simp [removeNode, hc2]
    · intro _; simp [removeNode, hc2]
    · intro _; simp [removeNode, hc2]
    · intro htrue; rw [htrue] at hc2; exact absurd hc2 (by decide)

/-- Witness for C9 at concrete inputs: removing an unknown id from a state
holding one node is the identity and returns `false`; removing the present
id returns `true` and the id is gone. -/
theorem removeNode_spec_witness :
    removeNode stWithPreRegistered ("absent") = (stWithPreRegistered, false)
      ∧ (removeNode stWithPreRegistered (generateNodeId ("u1"))).2 = true
      ∧ containsKey
          (removeNode stWithPreRegistered (generateNodeId ("u1"))).1.nodes
          (generateNodeId ("u1")) = false := by
  have h1 := removeNode_spec stWithPreRegistered ("absent") (by decide)
  have h2 := removeNode_spec stWithPreRegistered (generateNodeId ("u1")) (by decide)
  exact ⟨h1.2.1 (by decide), by rw [h2.1]; decide, h2.2.2.2 (by decide)⟩

/-- Claim C10: a freshly constructed service reports `disarmed` with zero
online nodes (not the `critical` the quorum table assigns to zero), no
authentication requirement, no emergency; and since `disarmed` is the
baseline previous posture, the first evaluation that finds at most one node
online is a disarmed-to-critical edge: it invokes the emergency listeners
and the alerting collaborator. -/
theorem fresh_state_disarmed_baseline (nodes : List MeshNode) (a e : List Nat)
    (h : onlineCount nodes ≤ 1) :
    getMeshStatus initialState =
      { totalNodes := 0, onlineNodes := 0
        systemStatus := SystemStatus.disarmed
        requiresUserAuthentication := false, emergencyTriggered := false }
      ∧ (getMeshStatus initialState).systemStatus ≠ postureOfCount 0
      ∧ (updateSystemStatus nodes initialState.systemStatus a e).newStatus =
          SystemStatus.critical
      ∧ (updateSystemStatus nodes initialState.systemStatus a e).emergInvoked = e
      ∧ (updateSystemStatus nodes initialState.systemStatus a e).alertingInvoked =
          true := by
  have hs : initialState.systemStatus = SystemStatus.disarmed := rfl
  refine ⟨by decide, by decide, ?_, ?_, ?_⟩ <;>
    · rw [hs]
      unfold updateSystemStatus MIN_NODES_ARMED
      split_ifs <;> first | rfl | omega | simp_all

/-- Witness for C10 at a concrete input: the empty node set (zero online)
with emergency listener 3. -/
theorem fresh_state_disarmed_baseline_witness :
    (updateSystemStatus [] initialState.systemStatus [] [3]).emergInvoked = [3]
      ∧ (getMeshStatus initialState).systemStatus = SystemStatus.disarmed := by
  have h := fresh_state_disarmed_baseline [] [] [3] (by decide)
  exact ⟨h.2.2.2.1, by rw [h.1]⟩

end Heartbeat
